import Mathlib

set_option maxRecDepth 100000

/-!
Shallow embedding of the RunBeat Spotify token-refresh background service
(`backend/app/services/token_refresh_service.py`, with the store client in
`backend/app/services/firebase_client.py` kept abstract behind environments).

Conventions of the embedding:
* timestamps are natural numbers counting seconds (`datetime` values in the
  source); `datetime.utcnow()` readings are supplied by environments;
* exceptions are modelled as `Option String` error results carrying the
  exception message as built by the source's f-strings;
* external I/O (Firestore HTTP calls, the Spotify OAuth endpoint, the
  APScheduler job store) is modelled by environment records that fix the
  outcome of each call; the APScheduler job queue of one-shot retry jobs
  (ids `retry_refresh_{device_id}`) is modelled as a list of device ids,
  `none` when the scheduler has not been started.
-/

/-- Python's `s.lower()` applied to the characters of a string. -/
def lowerChars (s : String) : List Char := s.data.map Char.toLower

/-- Python's `needle in hay` substring test. -/
def strContains (hay needle : String) : Bool := decide (needle.data <:+: hay.data)

/-- Python's `needle in hay.lower()` substring test (needle already lowercase). -/
def strContainsLower (hay needle : String) : Bool :=
  decide (needle.data <:+: lowerChars hay)

/-- The retryability check of `_refresh_expiring_tokens` (lines 246-247):
`error_str = str(e).lower()` followed by
`"invalid_grant" in error_str or "invalid refresh token" in error_str`. -/
def isInvalidToken (e : String) : Bool :=
  strContainsLower e "invalid_grant" || strContainsLower e "invalid refresh token"

/-- Class `TokenRefreshStats` (token_refresh_service.py lines 23-41): process-lifetime
counters. `last_run_time` is an `Option` timestamp, `last_error` an `Option`
message string. -/
structure TokenRefreshStats where
  total_refreshes : Nat := 0
  successful_refreshes : Nat := 0
  failed_refreshes : Nat := 0
  invalid_tokens_cleaned : Nat := 0
  retry_attempts : Nat := 0
  last_run_time : Option Nat := none
  last_error : Option String := none
  tokens_checked : Nat := 0
  tokens_requiring_refresh : Nat := 0
  deriving Repr, DecidableEq

/-- Method `TokenRefreshStats.reset_run_stats` (lines 37-41). -/
def TokenRefreshStats.reset_run_stats (s : TokenRefreshStats) : TokenRefreshStats :=
  { s with tokens_checked := 0, tokens_requiring_refresh := 0, last_error := none }

/-- The dictionary built by `TokenRefreshStats.to_dict` (lines 43-59).  Python's
float division is modelled over `ℚ`; the `isoformat` rendering of
`last_run_time` is kept as the optional timestamp itself. -/
structure StatsDict where
  total_refreshes : Nat
  successful_refreshes : Nat
  failed_refreshes : Nat
  invalid_tokens_cleaned : Nat
  retry_attempts : Nat
  last_run_time : Option Nat
  last_error : Option String
  tokens_checked_last_run : Nat
  tokens_requiring_refresh_last_run : Nat
  success_rate : ℚ
  deriving Repr

/-- Method `TokenRefreshStats.to_dict` (lines 43-59): in particular
`success_rate = successful_refreshes / total_refreshes if total_refreshes > 0
else 0`. -/
def TokenRefreshStats.to_dict (s : TokenRefreshStats) : StatsDict :=
  { total_refreshes := s.total_refreshes
    successful_refreshes := s.successful_refreshes
    failed_refreshes := s.failed_refreshes
    invalid_tokens_cleaned := s.invalid_tokens_cleaned
    retry_attempts := s.retry_attempts
    last_run_time := s.last_run_time
    last_error := s.last_error
    tokens_checked_last_run := s.tokens_checked
    tokens_requiring_refresh_last_run := s.tokens_requiring_refresh
    success_rate :=
      if s.total_refreshes > 0 then
        (s.successful_refreshes : ℚ) / (s.total_refreshes : ℚ)
      else 0 }

/-- A Firestore `spotify_tokens` document as seen by `_find_expiring_tokens`
(lines 313-333).  `expires_at_raw` models the `timestampValue` field together
with `datetime.fromisoformat`: `none` = field absent (or Python-falsy, i.e.
empty), `some none` = present but unparsable (the per-document `except` skips
it), `some (some t)` = parses to the timestamp `t`.  `refresh_token` /
`access_token` are the `stringValue` fields (`none` = absent). -/
structure StoredDoc where
  deviceId : String
  expires_at_raw : Option (Option Nat)
  refresh_token : Option String
  access_token : Option String
  deriving Repr, DecidableEq

/-- The per-candidate token data built by `_find_expiring_tokens`
(lines 337-341). -/
structure TokenData where
  access_token : String
  refresh_token : String
  expires_at : Nat
  deriving Repr, DecidableEq

/-- One iteration of the document loop of `_find_expiring_tokens`
(lines 313-356): skip when any of the three fields is absent or Python-falsy
(`if not all([...])`, empty strings included), skip when the timestamp does not
parse, otherwise a candidate iff `expires_at <= cutoff_time`. -/
def docCandidate (cutoff : Nat) (doc : StoredDoc) : Option (String × TokenData) :=
  match doc.expires_at_raw, doc.refresh_token, doc.access_token with
  | some parsed, some rt, some acc =>
    if rt.isEmpty || acc.isEmpty then none
    else
      match parsed with
      | none => none
      | some t =>
        if t ≤ cutoff then some (doc.deviceId, ⟨acc, rt, t⟩) else none
  | _, _, _ => none

/-- The candidate collection built by `_find_expiring_tokens` (lines 310-364)
from the documents the store returned, with
`cutoff_time = datetime.utcnow() + timedelta(minutes=45)` (line 311).  The
Python dict keyed by device id is modelled as the list of entries in document
order (Firestore document names are unique, so keys do not collide). -/
def find_expiring_tokens (now : Nat) (docs : List StoredDoc) :
    List (String × TokenData) :=
  docs.filterMap (docCandidate (now + 45 * 60))

/-- Result of the Spotify OAuth call `spotify_oauth.refresh_access_token`
as consumed by `_refresh_single_token` (lines 386-426).  `success` carries the
returned token-info dict (`none` models a falsy response); `spotifyError`
models a raised `spotipy.SpotifyException` with its `http_status` and its
`str(e)`; `raiseOther` models any other exception (network failure, timeout)
with its message. -/
structure TokenInfo where
  access_token : Option String
  refresh_token : Option String
  expires_in : Option Nat
  deriving Repr, DecidableEq

inductive OAuthResult where
  | success (info : Option TokenInfo)
  | spotifyError (http_status : Nat) (msg : String)
  | raiseOther (msg : String)
  deriving Repr, DecidableEq

/-- Outcomes of the external calls made during one `_refresh_single_token`
invocation: the OAuth call, the Firestore upsert `store_spotify_tokens`
(`none` = HTTP 200, `some m` = raised `FirebaseError` with message `m`), the
Firestore `delete_spotify_tokens` likewise, and the `datetime.utcnow()` reading
of line 393. -/
structure RefreshEnv where
  oauth : OAuthResult
  storeError : Option String
  deleteError : Option String
  now : Nat
  deriving Repr

/-- The credential record upserted by `firebase_client.store_spotify_tokens`
(firebase_client.py lines 47-120): a PATCH of the document
`spotify_tokens/{device_id}` (create-or-replace). -/
structure StoredWrite where
  deviceId : String
  access_token : String
  refresh_token : String
  expires_at : Nat
  deriving Repr, DecidableEq

/-- Observable outcome of one `_refresh_single_token` call (lines 370-437):
the record upserted to the store if the write succeeded, whether the
credential was deleted, the increment applied to
`stats.invalid_tokens_cleaned`, and the message of the exception propagated to
the caller (`none` = returned normally). -/
structure RefreshResult where
  storeWrite : Option StoredWrite
  deleted : Bool
  cleanedInc : Nat
  error : Option String
  deriving Repr, DecidableEq

/-- Method `_refresh_single_token` (lines 370-437).  Control flow of the source:
a falsy/`access_token`-less OAuth response raises
`"Invalid token response from Spotify"`; on success the new expiry is
`utcnow() + expires_in` with `expires_in = new_token_info.get("expires_in",
3600)` and the refresh token is `new_token_info.get("refresh_token",
refresh_token)`; a `SpotifyException` with `http_status == 400` and
`"invalid_grant" in str(e)` deletes the stored tokens, increments
`invalid_tokens_cleaned` and raises
`"Invalid refresh token for device {id}, tokens cleaned up"`; any other
`SpotifyException` raises `"Spotify API error: {str(e)}"`; a `FirebaseError`
from the store or delete call raises
`"Firebase error during token refresh: {str(e)}"`; other exceptions
propagate unchanged. -/
def refresh_single_token (env : RefreshEnv) (deviceId : String)
    (td : TokenData) : RefreshResult :=
  match env.oauth with
  | .success none =>
    ⟨none, false, 0, some "Invalid token response from Spotify"⟩
  | .success (some info) =>
    match info.access_token with
    | none => ⟨none, false, 0, some "Invalid token response from Spotify"⟩
    | some tok =>
      let expires_in := info.expires_in.getD 3600
      let expires_at := env.now + expires_in
      let new_refresh_token := info.refresh_token.getD td.refresh_token
      match env.storeError with
      | none => ⟨some ⟨deviceId, tok, new_refresh_token, expires_at⟩, false, 0, none⟩
      | some m => ⟨none, false, 0, some ("Firebase error during token refresh: " ++ m)⟩
  | .spotifyError status msg =>
    if status == 400 && strContains msg "invalid_grant" then
      match env.deleteError with
      | none =>
        ⟨none, true, 1,
          some ("Invalid refresh token for device " ++ deviceId ++ ", tokens cleaned up")⟩
      | some m =>
        ⟨none, false, 0, some ("Firebase error during token refresh: " ++ m)⟩
    else ⟨none, false, 0, some ("Spotify API error: " ++ msg)⟩
  | .raiseOther msg => ⟨none, false, 0, some msg⟩

/-- The failed-devices map `self.failed_devices : Dict[str, datetime]`
(line 76), modelled as an association list. -/
def fdLookup (d : String) : List (String × Nat) → Option Nat
  | [] => none
  | (k, v) :: t => if k = d then some v else fdLookup d t

/-- Python `self.failed_devices.pop(device_id, None)`. -/
def fdPop (d : String) (l : List (String × Nat)) : List (String × Nat) :=
  l.filter (fun p => p.1 ≠ d)

/-- Python `self.failed_devices[device_id] = t` (dict key assignment; the iteration
order of the dict is not used by the service logic, so the entry is placed at
the head). -/
def fdInsert (d : String) (t : Nat) (l : List (String × Nat)) :
    List (String × Nat) :=
  (d, t) :: fdPop d l

/-- The mutable state of the `SpotifyTokenRefreshService` singleton
(lines 70-84): the statistics object, the `is_running` single-flight flag, the
failed-devices map, and the scheduler's queue of one-shot retry jobs
(`retry_refresh_{device_id}` ids, modelled by their device ids; `none` models
`self.scheduler is None`, i.e. the scheduler was never started). -/
structure SpotifyTokenRefreshService where
  stats : TokenRefreshStats
  is_running : Bool
  failed_devices : List (String × Nat)
  scheduler : Option (List String)
  deriving Repr

/-- The retry jobs currently scheduled (empty when the scheduler is down). -/
def SpotifyTokenRefreshService.jobs (s : SpotifyTokenRefreshService) : List String :=
  s.scheduler.getD []

/-- Method `_schedule_retry` (lines 111-148): a no-op when the scheduler is not
running; otherwise `remove_job(retry_refresh_{device_id})` (ignoring a missing
job) followed by `add_job` of a one-shot retry for that device — i.e. the
job list keeps at most one job per device. -/
def schedule_retry (s : SpotifyTokenRefreshService) (d : String) :
    SpotifyTokenRefreshService :=
  match s.scheduler with
  | none => s
  | some jobs => { s with scheduler := some (jobs.filter (fun x => x ≠ d) ++ [d]) }

/-- Records how many external scans and per-token refresh calls one cycle
invocation actually performed (used to state the single-flight no-op). -/
structure CycleTrace where
  scans : Nat
  refreshCalls : Nat
  deriving Repr, DecidableEq

/-- Outcomes of the external calls made during one `_refresh_expiring_tokens`
cycle: the `datetime.utcnow()` reading, the Firestore token-list query of
`_find_expiring_tokens` (`none` = non-200 response or raised exception, which
that function swallows into an empty result), the per-device outcomes of the
`_refresh_single_token` calls, and an optional exception escaping the cycle
body (e.g. `scheduler.add_job` raising inside the loop's error handler), which
the body-level `except` of lines 276-279 turns into `last_error`. -/
structure CycleEnv where
  now : Nat
  scanResult : Option (List StoredDoc)
  refreshEnv : String → RefreshEnv
  unexpectedError : Option String

/-- One iteration of the candidate loop of `_refresh_expiring_tokens`
(lines 229-267): run `_refresh_single_token` (whose
`invalid_tokens_cleaned` increment happens inside it); on normal return
increment `successful_refreshes` and pop the device from `failed_devices`;
on exception increment `failed_refreshes` and, unless the message matches the
invalid-token patterns, record the failure time and schedule a retry; always
increment `total_refreshes`. -/
def processDevice (env : CycleEnv) (s : SpotifyTokenRefreshService)
    (item : String × TokenData) : SpotifyTokenRefreshService :=
  let r := refresh_single_token (env.refreshEnv item.1) item.1 item.2
  let s := { s with
    stats.invalid_tokens_cleaned := s.stats.invalid_tokens_cleaned + r.cleanedInc }
  let s :=
    match r.error with
    | none =>
      { s with
        stats.successful_refreshes := s.stats.successful_refreshes + 1,
        failed_devices := fdPop item.1 s.failed_devices }
    | some e =>
      let s := { s with
        stats.failed_refreshes := s.stats.failed_refreshes + 1 }
      if isInvalidToken e then s
      else
        schedule_retry
          { s with failed_devices := fdInsert item.1 env.now s.failed_devices }
          item.1
  { s with stats.total_refreshes := s.stats.total_refreshes + 1 }

/-- The `try` body of `_refresh_expiring_tokens` (lines 217-279): scan (on a
failed scan `_find_expiring_tokens` returns `{}` without touching
`tokens_checked`), return early on no candidates, otherwise set
`tokens_requiring_refresh` and process each candidate; an exception escaping
the body is recorded as `last_error = "Token refresh cycle failed: {e}"`. -/
def cycleBody (env : CycleEnv) (s : SpotifyTokenRefreshService) :
    SpotifyTokenRefreshService × CycleTrace :=
  match env.unexpectedError with
  | some m =>
    ({ s with stats.last_error := some ("Token refresh cycle failed: " ++ m) },
      ⟨0, 0⟩)
  | none =>
    let s :=
      match env.scanResult with
      | none => s
      | some docs => { s with stats.tokens_checked := docs.length }
    let expiring := find_expiring_tokens env.now (env.scanResult.getD [])
    if expiring.isEmpty then (s, ⟨1, 0⟩)
    else
      let s := { s with stats.tokens_requiring_refresh := expiring.length }
      (expiring.foldl (processDevice env) s, ⟨1, expiring.length⟩)

/-- Method `_refresh_expiring_tokens` (lines 202-282): the single-flight guard
(`if self.is_running: return`), then `is_running = True`, per-run stats reset
and `last_run_time = utcnow()`, the guarded body, and the `finally` clause
restoring `is_running = False`. -/
def refresh_expiring_tokens (s : SpotifyTokenRefreshService) (env : CycleEnv) :
    SpotifyTokenRefreshService × CycleTrace :=
  if s.is_running then (s, ⟨0, 0⟩)
  else
    let s := { s with
      is_running := true,
      stats := { s.stats.reset_run_stats with last_run_time := some env.now } }
    let (s, tr) := cycleBody env s
    ({ s with is_running := false }, tr)

/-- Outcomes of the external calls made during one `_retry_single_device`
invocation: the `get_spotify_tokens` read (`Except.error` = raised
`FirebaseError`, `Except.ok none` = document absent, `Except.ok (some td)` =
current token data) and the environment of the inner
`_refresh_single_token` call. -/
structure RetryEnv where
  getResult : Except String (Option TokenData)
  refreshEnv : RefreshEnv

/-- Method `_retry_single_device` (lines 162-200), together with the scheduler
consuming the fired one-shot job (a `date`-trigger job is removed from the
queue when it runs).  Returns the new state and the number of
`_refresh_single_token` calls made.  All paths end with
`failed_devices.pop(device_id, None)`: absent record, successful refresh
(which also increments `retry_attempts`), and any exception; no new retry is
scheduled here. -/
def retry_single_device (s : SpotifyTokenRefreshService) (env : RetryEnv)
    (d : String) : SpotifyTokenRefreshService × Nat :=
  let s := { s with
    scheduler := s.scheduler.map (fun js : List String => js.filter (fun x => x ≠ d)) }
  match env.getResult with
  | .error _ => ({ s with failed_devices := fdPop d s.failed_devices }, 0)
  | .ok none => ({ s with failed_devices := fdPop d s.failed_devices }, 0)
  | .ok (some td) =>
    let r := refresh_single_token env.refreshEnv d td
    let s := { s with
      stats.invalid_tokens_cleaned := s.stats.invalid_tokens_cleaned + r.cleanedInc }
    match r.error with
    | none =>
      ({ s with
          failed_devices := fdPop d s.failed_devices,
          stats.retry_attempts := s.stats.retry_attempts + 1 }, 1)
    | some _ => ({ s with failed_devices := fdPop d s.failed_devices }, 1)

/-- The dictionary returned by `manual_refresh_cycle` (lines 439-469), reduced
to its `status` and `message` keys (the non-guard branches additionally attach
`stats.to_dict()`). -/
structure ManualResult where
  status : String
  message : String
  deriving Repr, DecidableEq

/-- Method `manual_refresh_cycle` (lines 439-469): when a cycle is in progress return
`{"status": "error", "message": "Token refresh already in progress"}` without
invoking the cycle; otherwise run `_refresh_expiring_tokens` (which never
raises — its body catches every exception) and return the success dict. -/
def manual_refresh_cycle (s : SpotifyTokenRefreshService) (env : CycleEnv) :
    SpotifyTokenRefreshService × ManualResult :=
  if s.is_running then
    (s, ⟨"error", "Token refresh already in progress"⟩)
  else
    ((refresh_expiring_tokens s env).1, ⟨"success", "Manual refresh cycle completed"⟩)

/-- The service state right after `__init__` plus `start_scheduler`
(lines 70-109): fresh statistics, not running, no failed devices, scheduler
started with no retry jobs. -/
def initState : SpotifyTokenRefreshService := ⟨{}, false, [], some []⟩

/-- The states the running service can reach from `initState` through cycle
invocations (scheduled or manual) and the firing of scheduled one-shot retry
jobs (only a job actually in the queue can fire). -/
inductive Reachable : SpotifyTokenRefreshService → Prop
  | init : Reachable initState
  | cycle (s : SpotifyTokenRefreshService) (env : CycleEnv) :
      Reachable s → Reachable (refresh_expiring_tokens s env).1
  | manual (s : SpotifyTokenRefreshService) (env : CycleEnv) :
      Reachable s → Reachable (manual_refresh_cycle s env).1
  | retry (s : SpotifyTokenRefreshService) (env : RetryEnv) (d : String) :
      Reachable s → d ∈ s.jobs → Reachable (retry_single_device s env d).1

/-- A well-formed stored credential used as a concrete test fixture. -/
def docA : StoredDoc := ⟨"devA", some (some 1000), some "rt0", some "acc0"⟩

/-- A cycle environment in which the scan finds `docA` expiring and the
refresh call fails with a network timeout (a transient failure). -/
def envFail : CycleEnv :=
  { now := 100
    scanResult := some [docA]
    refreshEnv := fun _ => ⟨.raiseOther "timeout", none, none, 100⟩
    unexpectedError := none }

/-- A cycle environment in which the scan finds `docA` expiring and the
refresh call succeeds with a fresh token pair. -/
def envOk : CycleEnv :=
  { now := 200
    scanResult := some [docA]
    refreshEnv := fun _ =>
      ⟨.success (some ⟨some "newacc", some "newrt", some 3600⟩), none, none, 200⟩
    unexpectedError := none }

/-- The state after one cycle in which `devA`'s refresh failed transiently. -/
def sAfterFail : SpotifyTokenRefreshService :=
  (refresh_expiring_tokens initState envFail).1

/-- The state after a second (e.g. manually triggered) cycle in which `devA`'s
refresh succeeded, entered before the retry scheduled by the first cycle
fired. -/
def sAfterOk : SpotifyTokenRefreshService :=
  (refresh_expiring_tokens sAfterFail envOk).1

/-- The scheduler-queue effect of `_schedule_retry`, at the job-list level. -/
def scheduleJobs (d : String) : Option (List String) → Option (List String)
  | none => none
  | some jobs => some (jobs.filter (fun x => x ≠ d) ++ [d])

/-- The retry-coordinator bookkeeping invariant under analysis: the scheduler
is up, retry-job ids are unique, and every principal tracked in
`failed_devices` has exactly one scheduled retry job. -/
def RetryInv (s : SpotifyTokenRefreshService) : Prop :=
  s.scheduler.isSome = true ∧
  (∀ d, s.jobs.count d ≤ 1) ∧
  (∀ d, (fdLookup d s.failed_devices).isSome = true → s.jobs.count d = 1)

/-- A service state with a cycle currently in flight. -/
def sRun : SpotifyTokenRefreshService := ⟨{}, true, [], some []⟩

/-- A cycle environment whose body raises an unexpected exception. -/
def envBoom : CycleEnv :=
  { now := 0
    scanResult := none
    refreshEnv := fun _ => ⟨.raiseOther "x", none, none, 0⟩
    unexpectedError := some "boom" }

/-- A refresh environment in which the provider rejects the refresh token as
invalid (HTTP 400, `invalid_grant`). -/
def envPerm : RefreshEnv :=
  ⟨.spotifyError 400 "http status: 400, code: -1 - invalid_grant", none, none, 50⟩

/-- A cycle environment whose refresh calls all hit `envPerm`. -/
def cenvPerm : CycleEnv :=
  { now := 50
    scanResult := some [docA]
    refreshEnv := fun _ => envPerm
    unexpectedError := none }

/-- A refresh environment in which the provider-side refresh succeeds but the
subsequent Firestore write raises a `FirebaseError`. -/
def envStoreFail : RefreshEnv :=
  ⟨.success (some ⟨some "newacc", none, some 3600⟩),
    some "Failed to store tokens: 503 unavailable", none, 500⟩

/-- A cycle environment whose refresh calls all hit `envStoreFail`. -/
def cenvStoreFail : CycleEnv :=
  { now := 500
    scanResult := some [docA]
    refreshEnv := fun _ => envStoreFail
    unexpectedError := none }

/-- A retry environment in which the credential record has vanished from the
store. -/
def renvAbsent : RetryEnv := ⟨.ok none, ⟨.raiseOther "unused", none, none, 0⟩⟩

/-- A retry environment in which the credential is still present and the retry
refresh fails again with a timeout. -/
def renvPresentFail : RetryEnv :=
  ⟨.ok (some ⟨"acc0", "rt0", 1000⟩), ⟨.raiseOther "timeout", none, none, 300⟩⟩

/-- A statistics state with two attempted and one successful refresh. -/
def statsW : TokenRefreshStats := { total_refreshes := 2, successful_refreshes := 1 }

/-- A stored credential sitting exactly on the 45-minute expiry horizon for
`now = 100`. -/
def docB : StoredDoc := ⟨"devB", some (some 2800), some "rtB", some "accB"⟩

lemma count_filter_ne_self (d : String) (l : List String) :
    (l.filter (fun x => !decide (x = d))).count d = 0 := by
  apply List.count_eq_zero.mpr
  intro h
  simp [List.mem_filter] at h

lemma count_filter_ne_of_ne {d e : String} (h : e ≠ d) (l : List String) :
    (l.filter (fun x => !decide (x = d))).count e = l.count e :=
  List.count_filter (by simp [h])

lemma fdLookup_fdPop_self (d : String) : ∀ l : List (String × Nat),
    fdLookup d (fdPop d l) = none
  | [] => rfl
  | a :: t => by
    rw [fdPop, List.filter_cons]
    by_cases ha : a.1 = d
    · rw [if_neg (by simp [ha])]
      exact fdLookup_fdPop_self d t
    · rw [if_pos (by simp [ha]), fdLookup, if_neg ha]
      exact fdLookup_fdPop_self d t

lemma fdLookup_fdPop_of_ne {d e : String} (h : e ≠ d) : ∀ l : List (String × Nat),
    fdLookup e (fdPop d l) = fdLookup e l
  | [] => rfl
  | a :: t => by
    rw [fdPop, List.filter_cons]
    by_cases ha : a.1 = d
    · rw [if_neg (by simp [ha]), fdLookup, if_neg (by rw [ha]; exact Ne.symm h)]
      exact fdLookup_fdPop_of_ne h t
    · rw [if_pos (by simp [ha]), fdLookup, fdLookup]
      by_cases he : a.1 = e
      · rw [if_pos he, if_pos he]
      · rw [if_neg he, if_neg he]
        exact fdLookup_fdPop_of_ne h t

lemma fdLookup_fdInsert_self (d : String) (t : Nat) (l : List (String × Nat)) :
    fdLookup d (fdInsert d t l) = some t := by
  simp [fdInsert, fdLookup]

lemma fdLookup_fdInsert_of_ne {d e : String} (h : e ≠ d) (t : Nat)
    (l : List (String × Nat)) :
    fdLookup e (fdInsert d t l) = fdLookup e l := by
  simp [fdInsert, fdLookup, Ne.symm h, fdLookup_fdPop_of_ne h]

/-- C10: converting the statistics to a dictionary never divides by zero — the
derived `success_rate` is `0` when `total_refreshes = 0`, and equals
`successful_refreshes / total_refreshes` (equivalently, multiplies back to
`successful_refreshes`) when `total_refreshes > 0`. -/
theorem to_dict_success_rate_safe (s : TokenRefreshStats) :
    (s.total_refreshes = 0 → s.to_dict.success_rate = 0) ∧
    (0 < s.total_refreshes →
      s.to_dict.success_rate =
        (s.successful_refreshes : ℚ) / (s.total_refreshes : ℚ) ∧
      s.to_dict.success_rate * (s.total_refreshes : ℚ) =
        (s.successful_refreshes : ℚ)) := by
  constructor
  · intro h
    simp [TokenRefreshStats.to_dict, h]
  · intro h
    have hne : (s.total_refreshes : ℚ) ≠ 0 := by
      exact_mod_cast Nat.pos_iff_ne_zero.mp h
    constructor
    · simp [TokenRefreshStats.to_dict, h]
    · simp [TokenRefreshStats.to_dict, h, div_mul_cancel₀ _ hne]

/-- Witness for `to_dict_success_rate_safe` at concrete statistics. -/
theorem to_dict_success_rate_safe_witness :
    (({} : TokenRefreshStats).to_dict.success_rate = 0) ∧
    statsW.to_dict.success_rate * ((2 : Nat) : ℚ) = ((1 : Nat) : ℚ) :=
  ⟨(to_dict_success_rate_safe {}).1 rfl,
   ((to_dict_success_rate_safe statsW).2 (by decide)).2⟩

/-- C9 (counterexample): a manual trigger during a running cycle does not
return a result whose `status` is the literal `already_running`; the code
returns `status = "error"` (with the message
`"Token refresh already in progress"`). -/
theorem manual_already_running_counterexample :
    ¬ (manual_refresh_cycle sRun envOk).2.status = "already_running" := by
  decide

/-- C9 (amended): a manual trigger made while a cycle is running returns the
explicit result `{"status": "error", "message": "Token refresh already in
progress"}` without running a cycle and with the service state — in
particular every `RunStatistics` counter — unchanged. -/
theorem manual_guard_explicit_result (s : SpotifyTokenRefreshService)
    (env : CycleEnv) (h : s.is_running = true) :
    manual_refresh_cycle s env =
      (s, ⟨"error", "Token refresh already in progress"⟩) := by
  simp [manual_refresh_cycle, h]

/-- Witness for `manual_guard_explicit_result` at a concrete running state. -/
theorem manual_guard_explicit_result_witness :
    manual_refresh_cycle sRun envOk =
      (sRun, ⟨"error", "Token refresh already in progress"⟩) :=
  manual_guard_explicit_result sRun envOk rfl

/-- C6: scheduling a second retry for the same principal before the first
fires leaves exactly one retry job for it (cancel-then-reschedule), and does
not touch any other principal's jobs. -/
theorem schedule_retry_replaces (s : SpotifyTokenRefreshService) (d : String)
    (jobs : List String) (h : s.scheduler = some jobs) :
    (schedule_retry (schedule_retry s d) d).jobs.count d = 1 ∧
    ∀ e, e ≠ d →
      (schedule_retry (schedule_retry s d) d).jobs.count e = s.jobs.count e := by
  have h1 : schedule_retry s d =
      { s with scheduler := some (jobs.filter (fun x => x ≠ d) ++ [d]) } := by
    simp [schedule_retry, h]
  constructor
  · rw [h1]
    simp [schedule_retry, SpotifyTokenRefreshService.jobs,
      List.count_append, count_filter_ne_self]
  · intro e he
    rw [h1]
    simp [schedule_retry, SpotifyTokenRefreshService.jobs, h,
      List.count_append, count_filter_ne_of_ne he, List.count_cons, Ne.symm he]

/-- Witness for `schedule_retry_replaces` on the freshly started service. -/
theorem schedule_retry_replaces_witness :
    (schedule_retry (schedule_retry initState "devA") "devA").jobs.count "devA"
      = 1 :=
  (schedule_retry_replaces initState "devA" [] rfl).1

lemma mem_find_expiring_le {now : Nat} {docs : List StoredDoc} {id : String}
    {td : TokenData} (h : (id, td) ∈ find_expiring_tokens now docs) :
    td.expires_at ≤ now + 45 * 60 := by
  rcases List.mem_filterMap.mp h with ⟨b, _, hb⟩
  rcases b with ⟨bid, _ | p, _ | rt, _ | acc⟩ <;> simp [docCandidate] at hb
  rcases hb with ⟨hne, hb⟩
  rcases p with _ | t
  · simp at hb
  · simp at hb
    rcases hb with ⟨hle, _, htd⟩
    rw [← htd]
    exact hle

/-- C2: a credential record whose expiry timestamp, refresh token and access
token are all present and parsable (and non-empty) is returned as a refresh
candidate by the scanner iff `expires_at ≤ now + 45 minutes`, the boundary
`expires_at = now + 45 minutes` included. -/
theorem scanner_horizon (now : Nat) (doc : StoredDoc) (t : Nat) (rt acc : String)
    (h1 : doc.expires_at_raw = some (some t))
    (h2 : doc.refresh_token = some rt) (h3 : doc.access_token = some acc)
    (h4 : rt.isEmpty = false) (h5 : acc.isEmpty = false)
    (docs : List StoredDoc) (hmem : doc ∈ docs) :
    (doc.deviceId, (⟨acc, rt, t⟩ : TokenData)) ∈ find_expiring_tokens now docs ↔
      t ≤ now + 45 * 60 := by
  constructor
  · intro hin
    exact mem_find_expiring_le hin
  · intro hle
    exact List.mem_filterMap.mpr
      ⟨doc, hmem, by simp [docCandidate, h1, h2, h3, h4, h5, hle]⟩

/-- Witness for `scanner_horizon` at the exact 45-minute boundary. -/
theorem scanner_horizon_witness :
    ("devB", (⟨"accB", "rtB", 2800⟩ : TokenData)) ∈
      find_expiring_tokens 100 [docB] :=
  (scanner_horizon 100 docB 2800 "rtB" "accB" rfl rfl rfl rfl rfl [docB]
    (by decide)).mpr (by decide)

/-- C3: when the provider-side refresh succeeds and the store accepts the
write, the executor upserts a record carrying the provider's new access
token, the provider's new refresh token when supplied (else the candidate's
old one), and `expires_at = now + lifetime` with the provider-reported
lifetime defaulting to 3600 seconds; no exception is raised, nothing is
deleted. -/
theorem executor_success_writeback (env : RefreshEnv) (d : String)
    (td : TokenData) (info : TokenInfo) (tok : String)
    (ho : env.oauth = .success (some info)) (ha : info.access_token = some tok)
    (hs : env.storeError = none) :
    refresh_single_token env d td =
      ⟨some ⟨d, tok, info.refresh_token.getD td.refresh_token,
        env.now + info.expires_in.getD 3600⟩, false, 0, none⟩ := by
  simp [refresh_single_token, ho, ha, hs]

/-- Witness for `executor_success_writeback`: a provider response carrying a
new refresh token and an explicit lifetime, and one carrying neither. -/
theorem executor_success_writeback_witness :
    refresh_single_token
        ⟨.success (some ⟨some "na", some "nr", some 7200⟩), none, none, 100⟩
        "dev" ⟨"oa", "or", 50⟩ =
      ⟨some ⟨"dev", "na", "nr", 7300⟩, false, 0, none⟩ ∧
    refresh_single_token
        ⟨.success (some ⟨some "na", none, none⟩), none, none, 100⟩
        "dev" ⟨"oa", "or", 50⟩ =
      ⟨some ⟨"dev", "na", "or", 3700⟩, false, 0, none⟩ :=
  ⟨executor_success_writeback
      ⟨.success (some ⟨some "na", some "nr", some 7200⟩), none, none, 100⟩
      "dev" ⟨"oa", "or", 50⟩ ⟨some "na", some "nr", some 7200⟩ "na" rfl rfl rfl,
   executor_success_writeback
      ⟨.success (some ⟨some "na", none, none⟩), none, none, 100⟩
      "dev" ⟨"oa", "or", 50⟩ ⟨some "na", none, none⟩ "na" rfl rfl rfl⟩

/-- C1: the single-flight guarantee of the cycle orchestrator.  An invocation
(scheduled or manual) arriving while `is_running` is true returns at once —
no scan, no refresh calls, state untouched.  An invocation that does start
always exits with `is_running = false`, and an exception escaping the cycle
body is caught and recorded as
`last_error = "Token refresh cycle failed: {e}"`. -/
theorem cycle_single_flight (s : SpotifyTokenRefreshService) (env : CycleEnv) :
    (s.is_running = true →
      refresh_expiring_tokens s env = (s, ⟨0, 0⟩) ∧
      (manual_refresh_cycle s env).1 = s) ∧
    (s.is_running = false →
      (refresh_expiring_tokens s env).1.is_running = false ∧
      ∀ m, env.unexpectedError = some m →
        (refresh_expiring_tokens s env).1.stats.last_error =
          some ("Token refresh cycle failed: " ++ m)) := by
  constructor
  · intro h
    constructor
    · simp [refresh_expiring_tokens, h]
    · simp [manual_refresh_cycle, h]
  · intro h
    constructor
    · simp [refresh_expiring_tokens, h]
    · intro m hm
      simp [refresh_expiring_tokens, h, cycleBody, hm]

/-- Witness for `cycle_single_flight`: a running state is left untouched, and
an idle state hit by a body exception ends idle with the error recorded. -/
theorem cycle_single_flight_witness :
    refresh_expiring_tokens sRun envBoom = (sRun, ⟨0, 0⟩) ∧
    (manual_refresh_cycle sRun envBoom).1 = sRun ∧
    (refresh_expiring_tokens initState envBoom).1.is_running = false ∧
    (refresh_expiring_tokens initState envBoom).1.stats.last_error =
      some "Token refresh cycle failed: boom" :=
  ⟨((cycle_single_flight sRun envBoom).1 rfl).1,
   ((cycle_single_flight sRun envBoom).1 rfl).2,
   ((cycle_single_flight initState envBoom).2 rfl).1,
   ((cycle_single_flight initState envBoom).2 rfl).2 "boom" rfl⟩

lemma lowerChars_append (a b : String) :
    lowerChars (a ++ b) = lowerChars a ++ lowerChars b := by
  simp [lowerChars]

lemma invalid_msg_classified (d : String) :
    isInvalidToken
      ("Invalid refresh token for device " ++ d ++ ", tokens cleaned up") = true := by
  unfold isInvalidToken strContainsLower
  have h0 : "invalid refresh token".data <+:
      lowerChars "Invalid refresh token for device " := by decide
  have hpre : "invalid refresh token".data <+:
      lowerChars ("Invalid refresh token for device " ++ d ++ ", tokens cleaned up") := by
    rw [lowerChars_append, lowerChars_append]
    exact (h0.trans (List.prefix_append _ _)).trans (List.prefix_append _ _)
  rw [Bool.or_eq_true]
  exact Or.inr (decide_eq_true hpre.isInfix)

/-- C4: a provider rejection marking the refresh token invalid (HTTP 400 with
`invalid_grant`) deletes the credential from the store, increments
`invalid_tokens_cleaned` by exactly one, and — because the raised message is
classified as an invalid-token failure by the cycle — schedules no retry and
adds no failure tracking for that principal. -/
theorem permanent_failure_cleanup (env : RefreshEnv) (d : String)
    (td : TokenData) (msg : String)
    (ho : env.oauth = .spotifyError 400 msg)
    (hm : strContains msg "invalid_grant" = true)
    (hd : env.deleteError = none) :
    (refresh_single_token env d td).deleted = true ∧
    (refresh_single_token env d td).cleanedInc = 1 ∧
    (∀ e, (refresh_single_token env d td).error = some e →
      isInvalidToken e = true) ∧
    ∀ (cenv : CycleEnv) (s : SpotifyTokenRefreshService),
      cenv.refreshEnv d = env →
      (processDevice cenv s (d, td)).scheduler = s.scheduler ∧
      (processDevice cenv s (d, td)).failed_devices = s.failed_devices ∧
      (processDevice cenv s (d, td)).stats.invalid_tokens_cleaned =
        s.stats.invalid_tokens_cleaned + 1 := by
  have hr : refresh_single_token env d td =
      ⟨none, true, 1,
        some ("Invalid refresh token for device " ++ d ++ ", tokens cleaned up")⟩ := by
    simp [refresh_single_token, ho, hm, hd]
  refine ⟨by rw [hr], by rw [hr], ?_, ?_⟩
  · intro e he
    rw [hr] at he
    cases he
    exact invalid_msg_classified d
  · intro cenv s hre
    refine ⟨?_, ?_, ?_⟩ <;>
      simp [processDevice, hre, hr, invalid_msg_classified d]

/-- Witness for `permanent_failure_cleanup` at a concrete `invalid_grant`
rejection. -/
theorem permanent_failure_cleanup_witness :
    (refresh_single_token envPerm "devA" ⟨"acc0", "rt0", 1000⟩).deleted = true ∧
    (refresh_single_token envPerm "devA" ⟨"acc0", "rt0", 1000⟩).cleanedInc = 1 ∧
    (processDevice cenvPerm sRun ("devA", ⟨"acc0", "rt0", 1000⟩)).scheduler =
      sRun.scheduler ∧
    (processDevice cenvPerm sRun ("devA", ⟨"acc0", "rt0", 1000⟩)).failed_devices =
      sRun.failed_devices := by
  have h := permanent_failure_cleanup envPerm "devA" ⟨"acc0", "rt0", 1000⟩
    "http status: 400, code: -1 - invalid_grant" rfl (by decide) rfl
  exact ⟨h.1, h.2.1, (h.2.2.2 cenvPerm sRun rfl).1, (h.2.2.2 cenvPerm sRun rfl).2.1⟩

lemma schedule_retry_failed_devices (s : SpotifyTokenRefreshService) (d : String) :
    (schedule_retry s d).failed_devices = s.failed_devices := by
  cases h : s.scheduler <;> simp [schedule_retry, h]

lemma schedule_retry_stats (s : SpotifyTokenRefreshService) (d : String) :
    (schedule_retry s d).stats = s.stats := by
  cases h : s.scheduler <;> simp [schedule_retry, h]

lemma schedule_retry_scheduler (s : SpotifyTokenRefreshService) (d : String) :
    (schedule_retry s d).scheduler = scheduleJobs d s.scheduler := by
  cases h : s.scheduler <;> simp [schedule_retry, scheduleJobs, h]

/-- C8: when the provider-side refresh succeeds but the store write of the new
tokens fails, the executor reports a failure (no success, nothing persisted)
carrying the wrapped `FirebaseError`, and the cycle classifies it as
transient: `failed_refreshes` is incremented, `successful_refreshes` is not,
the principal enters the failure tracking, and exactly one deferred retry job
is scheduled for it. -/
theorem store_write_failure_transient (env : RefreshEnv) (d : String)
    (td : TokenData) (info : TokenInfo) (tok m : String)
    (ho : env.oauth = .success (some info)) (ha : info.access_token = some tok)
    (hs : env.storeError = some m)
    (hcl : isInvalidToken ("Firebase error during token refresh: " ++ m) = false) :
    (refresh_single_token env d td).error =
      some ("Firebase error during token refresh: " ++ m) ∧
    (refresh_single_token env d td).storeWrite = none ∧
    ∀ (cenv : CycleEnv) (s : SpotifyTokenRefreshService),
      cenv.refreshEnv d = env →
      (processDevice cenv s (d, td)).stats.failed_refreshes =
        s.stats.failed_refreshes + 1 ∧
      (processDevice cenv s (d, td)).stats.successful_refreshes =
        s.stats.successful_refreshes ∧
      fdLookup d (processDevice cenv s (d, td)).failed_devices = some cenv.now ∧
      ∀ jobs, s.scheduler = some jobs →
        (processDevice cenv s (d, td)).jobs.count d = 1 := by
  have hr : refresh_single_token env d td =
      ⟨none, false, 0, some ("Firebase error during token refresh: " ++ m)⟩ := by
    simp [refresh_single_token, ho, ha, hs]
  refine ⟨by rw [hr], by rw [hr], ?_⟩
  intro cenv s hre
  refine ⟨?_, ?_, ?_, ?_⟩
  · simp [processDevice, hre, hr, hcl, schedule_retry_stats]
  · simp [processDevice, hre, hr, hcl, schedule_retry_stats]
  · simp [processDevice, hre, hr, hcl, schedule_retry_failed_devices,
      fdLookup_fdInsert_self]
  · intro jobs hjobs
    simp [processDevice, hre, hr, hcl, SpotifyTokenRefreshService.jobs,
      schedule_retry_scheduler, scheduleJobs, hjobs, List.count_append,
      count_filter_ne_self]

/-- Witness for `store_write_failure_transient` at a concrete store outage. -/
theorem store_write_failure_transient_witness :
    (refresh_single_token envStoreFail "devA" ⟨"acc0", "rt0", 1000⟩).error =
      some ("Firebase error during token refresh: " ++
        "Failed to store tokens: 503 unavailable") ∧
    (processDevice cenvStoreFail initState ("devA", ⟨"acc0", "rt0", 1000⟩)).stats.failed_refreshes
      = 1 ∧
    fdLookup "devA"
      (processDevice cenvStoreFail initState ("devA", ⟨"acc0", "rt0", 1000⟩)).failed_devices
      = some 500 ∧
    (processDevice cenvStoreFail initState ("devA", ⟨"acc0", "rt0", 1000⟩)).jobs.count "devA"
      = 1 := by
  have h := store_write_failure_transient envStoreFail "devA" ⟨"acc0", "rt0", 1000⟩
    ⟨some "newacc", none, some 3600⟩ "newacc" "Failed to store tokens: 503 unavailable"
    rfl rfl rfl (by decide)
  exact ⟨h.1, (h.2.2 cenvStoreFail initState rfl).1,
    (h.2.2 cenvStoreFail initState rfl).2.2.1,
    (h.2.2 cenvStoreFail initState rfl).2.2.2 [] rfl⟩

/-- C7: the single-principal retry path.  When the credential record is
absent the tracking entry is removed and no refresh call is made; when it is
present the executor runs exactly once; on every outcome the tracking for the
principal is cleared, and the retry path schedules no new retry job — the job
queue afterwards is exactly the old queue with this principal's fired job
removed. -/
theorem retry_path_clears_tracking (s : SpotifyTokenRefreshService)
    (env : RetryEnv) (d : String) :
    (env.getResult = .ok none →
      (retry_single_device s env d).2 = 0 ∧
      fdLookup d (retry_single_device s env d).1.failed_devices = none) ∧
    (∀ td, env.getResult = .ok (some td) →
      (retry_single_device s env d).2 = 1 ∧
      fdLookup d (retry_single_device s env d).1.failed_devices = none) ∧
    (retry_single_device s env d).1.jobs = s.jobs.filter (fun x => x ≠ d) := by
  refine ⟨?_, ?_, ?_⟩
  · intro hg
    constructor
    · simp [retry_single_device, hg]
    · simp [retry_single_device, hg, fdLookup_fdPop_self]
  · intro td hg
    cases hr : (refresh_single_token env.refreshEnv d td).error with
    | none =>
      constructor
      · simp [retry_single_device, hg, hr]
      · simp [retry_single_device, hg, hr, fdLookup_fdPop_self]
    | some e =>
      constructor
      · simp [retry_single_device, hg, hr]
      · simp [retry_single_device, hg, hr, fdLookup_fdPop_self]
  · cases hg : env.getResult with
    | error e =>
      cases hs : s.scheduler <;>
        simp [retry_single_device, hg, SpotifyTokenRefreshService.jobs, hs]
    | ok o =>
      cases o with
      | none =>
        cases hs : s.scheduler <;>
          simp [retry_single_device, hg, SpotifyTokenRefreshService.jobs, hs]
      | some td =>
        cases hr : (refresh_single_token env.refreshEnv d td).error <;>
          cases hs : s.scheduler <;>
            simp [retry_single_device, hg, hr, SpotifyTokenRefreshService.jobs, hs]

/-- Witness for `retry_path_clears_tracking`: an absent record (no refresh
call) and a present record whose retry fails again (one call, tracking still
cleared). -/
theorem retry_path_clears_tracking_witness :
    ((retry_single_device sAfterFail renvAbsent "devA").2 = 0 ∧
      fdLookup "devA"
        (retry_single_device sAfterFail renvAbsent "devA").1.failed_devices = none) ∧
    ((retry_single_device sAfterFail renvPresentFail "devA").2 = 1 ∧
      fdLookup "devA"
        (retry_single_device sAfterFail renvPresentFail "devA").1.failed_devices = none) ∧
    (retry_single_device sAfterFail renvPresentFail "devA").1.jobs = [] :=
  ⟨(retry_path_clears_tracking sAfterFail renvAbsent "devA").1 rfl,
   (retry_path_clears_tracking sAfterFail renvPresentFail "devA").2.1
     ⟨"acc0", "rt0", 1000⟩ rfl,
   by decide⟩

lemma jobs_def (s : SpotifyTokenRefreshService) : s.jobs = s.scheduler.getD [] := rfl

lemma retryInv_congr (s s' : SpotifyTokenRefreshService)
    (hfd : s'.failed_devices = s.failed_devices)
    (hsc : s'.scheduler = s.scheduler) (h : RetryInv s) : RetryInv s' := by
  obtain ⟨h1, h2, h3⟩ := h
  refine ⟨by rw [hsc]; exact h1, ?_, ?_⟩
  · intro d
    rw [jobs_def, hsc]
    exact h2 d
  · intro d hd
    rw [hfd] at hd
    rw [jobs_def, hsc]
    exact h3 d hd

lemma processDevice_fd_scheduler (env : CycleEnv) (s : SpotifyTokenRefreshService)
    (item : String × TokenData) :
    ((processDevice env s item).failed_devices = fdPop item.1 s.failed_devices ∧
      (processDevice env s item).scheduler = s.scheduler) ∨
    ((processDevice env s item).failed_devices = s.failed_devices ∧
      (processDevice env s item).scheduler = s.scheduler) ∨
    ((processDevice env s item).failed_devices =
        fdInsert item.1 env.now s.failed_devices ∧
      (processDevice env s item).scheduler = scheduleJobs item.1 s.scheduler) := by
  cases hr : (refresh_single_token (env.refreshEnv item.1) item.1 item.2).error with
  | none =>
    left
    constructor <;> simp [processDevice, hr]
  | some e =>
    by_cases hi : isInvalidToken e
    · right; left
      constructor <;> simp [processDevice, hr, hi]
    · right; right
      constructor <;>
        simp [processDevice, hr, hi, schedule_retry_failed_devices,
          schedule_retry_scheduler]

lemma retryInv_processDevice (env : CycleEnv) (s : SpotifyTokenRefreshService)
    (item : String × TokenData) (h : RetryInv s) :
    RetryInv (processDevice env s item) := by
  obtain ⟨h1, h2, h3⟩ := h
  rcases processDevice_fd_scheduler env s item with ⟨hfd, hsc⟩ | ⟨hfd, hsc⟩ | ⟨hfd, hsc⟩
  · refine ⟨by rw [hsc]; exact h1, ?_, ?_⟩
    · intro d
      rw [jobs_def, hsc]
      exact h2 d
    · intro d hd
      rw [hfd] at hd
      by_cases hdx : d = item.1
      · subst hdx
        rw [fdLookup_fdPop_self] at hd
        simp at hd
      · rw [fdLookup_fdPop_of_ne hdx] at hd
        rw [jobs_def, hsc]
        exact h3 d hd
  · exact retryInv_congr s _ hfd hsc ⟨h1, h2, h3⟩
  · obtain ⟨jobs, hjobs⟩ := Option.isSome_iff_exists.mp h1
    have hsc' : (processDevice env s item).scheduler =
        some (jobs.filter (fun x => x ≠ item.1) ++ [item.1]) := by
      rw [hsc, hjobs]
      rfl
    have hcount : ∀ d, d ≠ item.1 →
        ((jobs.filter (fun x => x ≠ item.1) ++ [item.1]).count d = jobs.count d) := by
      intro d hdx
      simp [List.count_append, count_filter_ne_of_ne hdx, List.count_singleton,
        hdx]
    have hcountself :
        ((jobs.filter (fun x => x ≠ item.1) ++ [item.1]).count item.1 = 1) := by
      simp [List.count_append, count_filter_ne_self]
    refine ⟨by rw [hsc']; rfl, ?_, ?_⟩
    · intro d
      rw [jobs_def, hsc']
      simp only [Option.getD_some]
      by_cases hdx : d = item.1
      · subst hdx
        exact hcountself.le
      · rw [hcount d hdx]
        have := h2 d
        rw [jobs_def, hjobs] at this
        simpa using this
    · intro d hd
      rw [hfd] at hd
      rw [jobs_def, hsc']
      simp only [Option.getD_some]
      by_cases hdx : d = item.1
      · subst hdx
        exact hcountself
      · rw [hcount d hdx]
        rw [fdLookup_fdInsert_of_ne hdx] at hd
        have := h3 d hd
        rw [jobs_def, hjobs] at this
        simpa using this

lemma retryInv_foldl (env : CycleEnv) (items : List (String × TokenData)) :
    ∀ s, RetryInv s → RetryInv (items.foldl (processDevice env) s) := by
  induction items with
  | nil => intro s h; exact h
  | cons a t ih =>
    intro s h
    exact ih _ (retryInv_processDevice env s a h)

lemma retryInv_cycleBody (env : CycleEnv) (s : SpotifyTokenRefreshService)
    (h : RetryInv s) : RetryInv (cycleBody env s).1 := by
  unfold cycleBody
  rcases he : env.unexpectedError with _ | m
  · rcases hs : env.scanResult with _ | docs <;> simp only
    · split
      · exact retryInv_congr s _ rfl rfl h
      · exact retryInv_foldl env _ _ (retryInv_congr s _ rfl rfl h)
    · split
      · exact retryInv_congr s _ rfl rfl h
      · exact retryInv_foldl env _ _ (retryInv_congr s _ rfl rfl h)
  · exact retryInv_congr s _ rfl rfl h

lemma retryInv_cycle (s : SpotifyTokenRefreshService) (env : CycleEnv)
    (h : RetryInv s) : RetryInv (refresh_expiring_tokens s env).1 := by
  unfold refresh_expiring_tokens
  split
  · exact h
  · exact retryInv_congr _ _ rfl rfl
      (retryInv_cycleBody env _ (retryInv_congr s _ rfl rfl h))

lemma retryInv_manual (s : SpotifyTokenRefreshService) (env : CycleEnv)
    (h : RetryInv s) : RetryInv (manual_refresh_cycle s env).1 := by
  unfold manual_refresh_cycle
  split
  · exact h
  · exact retryInv_cycle s env h

lemma retry_single_device_fd (s : SpotifyTokenRefreshService) (env : RetryEnv)
    (d : String) :
    (retry_single_device s env d).1.failed_devices = fdPop d s.failed_devices := by
  rcases hg : env.getResult with e | _ | td
  · simp [retry_single_device, hg]
  · simp [retry_single_device, hg]
  · cases hr : (refresh_single_token env.refreshEnv d td).error <;>
      simp [retry_single_device, hg, hr]

lemma retry_single_device_scheduler (s : SpotifyTokenRefreshService)
    (env : RetryEnv) (d : String) :
    (retry_single_device s env d).1.scheduler =
      s.scheduler.map (fun js : List String => js.filter (fun x => x ≠ d)) := by
  rcases hg : env.getResult with e | _ | td
  · simp [retry_single_device, hg]
  · simp [retry_single_device, hg]
  · cases hr : (refresh_single_token env.refreshEnv d td).error <;>
      simp [retry_single_device, hg, hr]

lemma retryInv_retry (s : SpotifyTokenRefreshService) (env : RetryEnv)
    (d : String) (h : RetryInv s) : RetryInv (retry_single_device s env d).1 := by
  obtain ⟨h1, h2, h3⟩ := h
  obtain ⟨jobs, hjobs⟩ := Option.isSome_iff_exists.mp h1
  have hsc : (retry_single_device s env d).1.scheduler =
      some (jobs.filter (fun x => x ≠ d)) := by
    rw [retry_single_device_scheduler, hjobs]
    rfl
  refine ⟨by rw [hsc]; rfl, ?_, ?_⟩
  · intro e
    rw [jobs_def, hsc]
    simp only [Option.getD_some]
    by_cases hdx : e = d
    · subst hdx
      simp [count_filter_ne_self]
    · rw [show (fun x => decide (x ≠ d)) = (fun x => !decide (x = d)) by
        funext x; simp, count_filter_ne_of_ne hdx]
      have := h2 e
      rw [jobs_def, hjobs] at this
      simpa using this
  · intro e he
    rw [retry_single_device_fd] at he
    by_cases hdx : e = d
    · subst hdx
      rw [fdLookup_fdPop_self] at he
      simp at he
    · rw [fdLookup_fdPop_of_ne hdx] at he
      rw [jobs_def, hsc]
      simp only [Option.getD_some]
      rw [show (fun x => decide (x ≠ d)) = (fun x => !decide (x = d)) by
        funext x; simp, count_filter_ne_of_ne hdx]
      have := h3 e he
      rw [jobs_def, hjobs] at this
      simpa using this

lemma reachable_retryInv {s : SpotifyTokenRefreshService} (h : Reachable s) :
    RetryInv s := by
  induction h with
  | init =>
    refine ⟨rfl, ?_, ?_⟩
    · intro d
      simp [jobs_def, initState]
    · intro d hd
      simp [initState, fdLookup] at hd
  | cycle s env _ ih => exact retryInv_cycle s env ih
  | manual s env _ ih => exact retryInv_manual s env ih
  | retry s env d _ _ ih => exact retryInv_retry s env d ih

/-- C5 (counterexample): the mapping/retry-job bijection fails on a reachable
state.  After a cycle in which `devA` failed transiently (entry + one retry
job) and a second cycle in which `devA` refreshed successfully before the
retry fired, the success path pops the `failed_devices` entry but does not
cancel the scheduled retry job: the state has no entry for `devA` yet still
exactly one scheduled retry job. -/
theorem failed_mapping_bijection_counterexample :
    Reachable sAfterOk ∧
    ¬ (((fdLookup "devA" sAfterOk.failed_devices).isSome = true) ↔
        sAfterOk.jobs.count "devA" = 1) :=
  ⟨Reachable.cycle sAfterFail envOk
      (Reachable.cycle initState envFail Reachable.init),
    by decide⟩

/-- C5 (amended): only one direction of the bijection holds.  In every
reachable state (scheduler started), a principal tracked in `failed_devices`
has exactly one scheduled retry job; the converse fails because a
regular-cycle success removes the tracking entry without cancelling an
already-scheduled retry job. -/
theorem failed_entry_implies_single_job (s : SpotifyTokenRefreshService)
    (h : Reachable s) (d : String)
    (he : (fdLookup d s.failed_devices).isSome = true) :
    s.jobs.count d = 1 :=
  (reachable_retryInv h).2.2 d he

/-- Witness for `failed_entry_implies_single_job` on the reachable state after
one transiently failed cycle. -/
theorem failed_entry_implies_single_job_witness :
    (fdLookup "devA" sAfterFail.failed_devices).isSome = true ∧
    sAfterFail.jobs.count "devA" = 1 :=
  ⟨by decide,
    failed_entry_implies_single_job sAfterFail
      (Reachable.cycle initState envFail Reachable.init) "devA" (by decide)⟩
